import Mathlib

/-!
Verification of the Renewgy Excel-to-CSV parser core (renewgy_parser.py).

The development shallowly embeds the functions of the parser that the
specified properties are about: the peak/off-peak classifier, the period
splitter, the EAN-mapping resolver, identifier extraction, the data
extractor with its start-date filter, and the timestamp-column locator
with its layered fallbacks.  Spreadsheet cells are modelled by an explicit
tagged type; datetimes are minutes since an epoch placed at 00:00 of a
Monday, so that weekday and hour are derived arithmetically exactly as the
source derives them from a pandas Timestamp.
-/

/-- Lowercase one ASCII character, as Python str.lower does on ASCII. -/
def charToLower (c : Char) : Char :=
  if 65 ≤ c.toNat ∧ c.toNat ≤ 90 then Char.ofNat (c.toNat + 32) else c

/-- Python str.lower on a string (ASCII range). -/
def lowerStr (s : String) : String := String.mk (s.data.map charToLower)

/-- Whitespace recognised by strip. -/
def isWsChar (c : Char) : Bool := c == ' ' || c == '\t' || c == '\n' || c == '\r'

/-- Python str.strip on a character list. -/
def trimChars (l : List Char) : List Char :=
  ((l.dropWhile isWsChar).reverse.dropWhile isWsChar).reverse

/-- Python str.strip. -/
def trimStr (s : String) : String := String.mk (trimChars s.data)

/-- Does the second list start with the first list as an initial segment. -/
def strStarts : List Char → List Char → Bool
  | [], _ => true
  | _ :: _, [] => false
  | p :: ps, c :: cs => p == c && strStarts ps cs

/-- Does the list contain the pattern as a contiguous run. -/
def hasSub (pat : List Char) : List Char → Bool
  | [] => strStarts pat []
  | c :: rest => strStarts pat (c :: rest) || hasSub pat rest

/-- Python substring containment: pat in s. -/
def containsSub (s pat : String) : Bool := hasSub pat.data s.data

/-- Python k.startswith(p). -/
def keyStarts (k p : String) : Bool := strStarts p.data k.data

/-- ASCII decimal digit test. -/
def isDigitChar (c : Char) : Bool := 48 ≤ c.toNat && c.toNat ≤ 57

/-- Value of a digit run. -/
def digitsVal (l : List Char) : Nat := l.foldl (fun a c => a * 10 + (c.toNat - 48)) 0

/-- Simplified model of pandas numeric coercion of a text value: optional
sign, decimal digits, at most one decimal point.  Exotic accepted forms
(scientific form, inf, nan) are modelled as failures; no claim depends
on exactly which strings coerce, only on failures being kept as missing. -/
def parseDecimal (s : String) : Option ℚ :=
  let cs := trimChars s.data
  let sgn : Bool × List Char :=
    match cs with
    | '-' :: rest => (true, rest)
    | '+' :: rest => (false, rest)
    | _ => (false, cs)
  let ip := sgn.2.takeWhile (fun c => c != '.')
  let rest := sgn.2.dropWhile (fun c => c != '.')
  match rest with
  | [] =>
    if ip ≠ [] ∧ ip.all isDigitChar then
      some (if sgn.1 then -(digitsVal ip : ℚ) else (digitsVal ip : ℚ))
    else none
  | _ :: frac =>
    if (ip ≠ [] ∨ frac ≠ []) ∧ ip.all isDigitChar ∧ frac.all isDigitChar then
      let v : ℚ := (digitsVal ip : ℚ) + (digitsVal frac : ℚ) / ((10 : ℚ) ^ frac.length)
      some (if sgn.1 then -v else v)
    else none

/-- One spreadsheet cell as the parser observes it: empty (NaN), a number,
a text value that pandas cannot parse as a datetime, or a datetime-valued
cell carrying both its string form and its parsed instant (minutes since
an epoch at 00:00 of a Monday). -/
inductive Cell where
  | empty : Cell
  | num : ℚ → Cell
  | text : String → Cell
  | dt : String → Nat → Cell
deriving DecidableEq, Repr

/-- pandas notna on a cell. -/
def Cell.isNotNA : Cell → Bool
  | .empty => false
  | _ => true

/-- Python str() of a cell value. -/
def cellStr : Cell → String
  | .empty => ""
  | .num q => toString q
  | .text s => s
  | .dt s _ => s

/-- pandas to_datetime of one cell with errors coerce: datetime cells keep
their instant, everything else becomes NaT (none).  The epoch
interpretation pandas gives plain numbers is not modelled; no claim
involves numeric timestamp cells. -/
def parse_dt_cell : Cell → Option Nat
  | .dt _ t => some t
  | _ => none

/-- Is the cell a parseable datetime. -/
def Cell.isDatetime (c : Cell) : Bool := (parse_dt_cell c).isSome

/-- pandas to_numeric with errors coerce on one cell. -/
def to_numeric : Cell → Option ℚ
  | .num q => some q
  | .text s => parseDecimal s
  | _ => none

/-- The loaded worksheet: a list of rows of cells, and the column count
(shape[1]) of the frame. -/
structure Grid where
  rows : List (List Cell)
  ncols : Nat
deriving DecidableEq, Repr

/-- Row access, iloc[r]. -/
def Grid.row (g : Grid) (r : Nat) : List Cell := (g.rows.get? r).getD []

/-- Single cell access, iloc[r, c]; none models the IndexError case. -/
def cellAt (g : Grid) (r c : Nat) : Option Cell :=
  g.rows.get? r >>= fun row => row.get? c

/-- EAN mapping record, from the dataclass of the same name. -/
structure EANMapping where
  source_id : String
  variable_id : String
  description : String := ""
deriving DecidableEq, Repr

/-- Parser configuration, from the dataclass of the same name; the start
date is in epoch minutes. -/
structure ParserConfig where
  sheet_index : Nat := 0
  header_row : Nat := 0
  header_col : Nat := 1
  data_start_row : Nat := 4
  timestamp_col : Nat := 0
  value_col : Nat := 2
  min_rows : Nat := 6
  min_cols : Nat := 3
  start_date : Option Nat := none
deriving DecidableEq, Repr

/-- extract_ean_from_excel: read the cell at (header_row, header_col),
require a non-NaN value containing an underscore, and return the part
before the first underscore, stripped.  Out-of-range access (an
IndexError in the source, re-raised there as ValueError) is the none case
of cellAt. -/
def extract_ean_from_excel (g : Grid) (config : ParserConfig) : Except String String :=
  match cellAt g config.header_row config.header_col with
  | none => .error "Failed to extract EAN: cell out of range"
  | some c =>
    if c.isNotNA = false ∨ containsSub (cellStr c) "_" = false then
      .error "Invalid EAN format"
    else
      let ean := trimStr (String.mk ((cellStr c).data.takeWhile (fun ch => ch != '_')))
      if ean = "" then .error "EAN is empty after extraction" else .ok ean

/-- Weekday of an instant, Monday = 0 .. Sunday = 6. -/
def weekday (t : Nat) : Nat := (t / 1440) % 7

/-- Hour of day of an instant. -/
def hourOf (t : Nat) : Nat := (t % 1440) / 60

/-- is_peak_hour: weekends (weekday 5 or 6) are always off-peak, weekdays
are peak exactly in hours 7 to 21 inclusive. -/
def is_peak_hour (t : Nat) : Bool :=
  if 5 ≤ weekday t then false
  else decide (7 ≤ hourOf t) && decide (hourOf t < 22)

/-- The four distinct KeyError messages of find_ean_mapping, as a tagged
error type carrying the data each message interpolates. -/
inductive MappingError where
  | dualVariantsNoPeriod : String → MappingError
  | variantMissing : String → String → MappingError
  | similarAvailable : String → List String → MappingError
  | notFound : String → List String → MappingError
deriving DecidableEq, Repr

/-- find_ean_mapping.  The mapping table is an association list in
insertion order, as a Python dict iterates. -/
def find_ean_mapping (ean : String) (ean_mapping : List (String × EANMapping))
    (is_peak : Option Bool) : Except MappingError EANMapping :=
  let fallThrough : Except MappingError EANMapping :=
    match ean_mapping.lookup ean with
    | some v => .ok v
    | none =>
      if (ean_mapping.lookup (ean ++ "_peak")).isSome
          || (ean_mapping.lookup (ean ++ "_offpeak")).isSome then
        match is_peak with
        | none => .error (.dualVariantsNoPeriod ean)
        | some b => .error (.variantMissing ean (if b then "peak" else "offpeak"))
      else
        let available := (ean_mapping.map Prod.fst).filter (fun k => keyStarts k ean)
        if available = [] then
          .error (.notFound ean ((ean_mapping.map Prod.fst).take 5))
        else
          .error (.similarAvailable ean available)
  match is_peak with
  | some b =>
    match ean_mapping.lookup (ean ++ (if b then "_peak" else "_offpeak")) with
    | some v => .ok v
    | none => fallThrough
  | none => fallThrough

/-- has_peak_offpeak_variants. -/
def has_peak_offpeak_variants (ean : String)
    (ean_mapping : List (String × EANMapping)) : Bool :=
  (ean_mapping.lookup (ean ++ "_peak")).isSome
    && (ean_mapping.lookup (ean ++ "_offpeak")).isSome

/-- Does a row contain a non-NaN cell whose lowercased string contains
the marker "role description". -/
def roleRow (row : List Cell) : Bool :=
  row.any fun c => c.isNotNA && containsSub (lowerStr (cellStr c)) "role description"

/-- The header-row search shared by find_consumption_column and
find_timestamp_column: first of the first five rows containing the
marker. -/
def find_role_header_row (g : Grid) : Option Nat :=
  (List.range (min 5 g.rows.length)).find? fun r => roleRow (g.row r)

/-- Does a row contain a non-NaN cell whose lowercased string contains
the marker "profile description". -/
def profileRow (row : List Cell) : Bool :=
  row.any fun c => c.isNotNA && containsSub (lowerStr (cellStr c)) "profile description"

/-- find_data_start_row: one past the first of the first six rows holding
"profile description", defaulting to 4. -/
def find_data_start_row (g : Grid) : Nat :=
  match (List.range (min 6 g.rows.length)).find? (fun r => profileRow (g.row r)) with
  | some r => r + 1
  | none => 4

/-- find_consumption_column: needs at least two rows and a located header
row, then the first header cell whose stripped string equals the requested
consumption type. -/
def find_consumption_column (g : Grid) (ctype : String) : Except String Nat :=
  if g.rows.length < 2 then
    .error "Excel file does not have enough rows to search for consumption type"
  else
    match find_role_header_row g with
    | none => .error "Could not find header row containing Role description"
    | some hri =>
      match (g.row hri).findIdx? (fun c => c.isNotNA && trimStr (cellStr c) == ctype) with
      | some i => .ok i
      | none => .error "Consumption type not found in header row"

/-- iloc[a:b, col] of the grid; rows past the end are dropped exactly as
Python slicing drops them. -/
def colSlice (g : Grid) (a b col : Nat) : List Cell :=
  ((g.rows.drop a).take (b - a)).map fun row => (row.get? col).getD .empty

/-- iloc[a:, col] of the grid. -/
def colSliceFrom (g : Grid) (a col : Nat) : List Cell :=
  (g.rows.drop a).map fun row => (row.get? col).getD .empty

/-- The year tokens of the content heuristics, in source order. -/
def yearSubs : List String := ["2024", "2023", "2025", "2022"]

/-- Does the string contain at least one of the given substrings. -/
def hasAnySub (s : String) (pats : List String) : Bool := pats.any fun p => containsSub s p

/-- Cell test of the headerless-grid content heuristic (3-row sample):
non-NaN and a year token, dash or colon in the string form. -/
def dateLike_headerless (c : Cell) : Bool :=
  c.isNotNA && hasAnySub (cellStr c) (yearSubs ++ ["-", ":"])

/-- Cell test of the labeled-grid content heuristic (5-row sample): besides
the year-or-colon substring gate, the string form must parse as a
datetime. -/
def dateLike_labeled (c : Cell) : Bool :=
  c.isNotNA && hasAnySub (cellStr c) (yearSubs ++ [":"]) && c.isDatetime

/-- Cell test of the final single-cell check on column 0. -/
def dateLike_col0 (c : Cell) : Bool :=
  c.isNotNA && hasAnySub (cellStr c) (yearSubs ++ [":"])

/-- Headerless content heuristic: first of the first four columns in which
at least 2 of 3 sampled data cells look date-like. -/
def heuristic3 (g : Grid) : Option Nat :=
  let dsr := find_data_start_row g
  (List.range (min 4 g.ncols)).find? fun col =>
    2 ≤ (colSlice g dsr (dsr + 3) col).countP (fun c => dateLike_headerless c)

/-- Labeled-grid content heuristic: first of the first four columns in
which at least 3 of 5 sampled data cells look date-like and parse. -/
def heuristic5 (g : Grid) : Option Nat :=
  let dsr := find_data_start_row g
  (List.range (min 4 g.ncols)).find? fun col =>
    3 ≤ (colSlice g dsr (dsr + 5) col).countP (fun c => dateLike_labeled c)

/-- Resolution stage 1: a header-row cell containing "date". -/
def ts_stage1 (g : Grid) : Option Nat :=
  (find_role_header_row g).bind fun hri =>
    (g.row hri).findIdx? fun c => c.isNotNA && containsSub (lowerStr (cellStr c)) "date"

/-- Resolution stage 2: the content heuristic of the branch taken. -/
def ts_stage2 (g : Grid) : Option Nat :=
  match find_role_header_row g with
  | none => heuristic3 g
  | some _ => heuristic5 g

/-- Resolution stage 3: one column left of the consumption column when
that column resolves and is positive. -/
def ts_stage3 (g : Grid) : Option Nat :=
  match find_consumption_column g "MEASURED ACTIVE CONSUMPTION" with
  | .ok c => if 0 < c then some (c - 1) else none
  | .error _ => none

/-- Resolution stage 4: the single year-or-colon check on column 0 at the
data start row. -/
def ts_stage4 (g : Grid) : Option Nat :=
  let dsr := find_data_start_row g
  if dsr < g.rows.length then
    match cellAt g dsr 0 with
    | some c => if dateLike_col0 c then some 0 else none
    | none => none
  else none

/-- find_timestamp_column, transcribing the control flow of the source:
without a header row, the 3-sample heuristic then the default; with one,
the "date" header scan, the 5-sample heuristic, the
before-consumption inference, the column-0 check, then the default. -/
def find_timestamp_column (g : Grid) : Nat :=
  match find_role_header_row g with
  | none =>
    match heuristic3 g with
    | some c => c
    | none => 0
  | some hri =>
    match (g.row hri).findIdx? (fun c => c.isNotNA && containsSub (lowerStr (cellStr c)) "date") with
    | some c => c
    | none =>
      match heuristic5 g with
      | some c => c
      | none =>
        match ts_stage3 g with
        | some c => c
        | none =>
          match ts_stage4 g with
          | some c => c
          | none => 0

/-- The keep test of the start-date filter: parse the timestamp with
errors coerce and compare; NaT comparisons are false. -/
def dateKeep (d : Nat) (c : Cell) : Bool :=
  match parse_dt_cell c with
  | some t => decide (d ≤ t)
  | none => false

/-- pandas boolean-mask indexing s[mask] followed by reset_index. -/
def maskFilter (xs : List α) (mask : List Bool) : List α :=
  (xs.zip mask).filterMap fun p => if p.2 then some p.1 else none

/-- The lockstep start-date filter inside extract_data_from_excel. -/
def filter_by_start_date (d : Nat) (ts : List Cell) (vs : List α) :
    List Cell × List α :=
  let mask := ts.map (dateKeep d)
  (maskFilter ts mask, maskFilter vs mask)

/-- extract_data_from_excel: locate the value column, timestamp column and
data start row, slice both series, coerce values numerically, optionally
filter by the start date, and check the alignment invariant. -/
def extract_data_from_excel (g : Grid) (config : ParserConfig) (ctype : String) :
    Except String (List Cell × List (Option ℚ)) :=
  match find_consumption_column g ctype with
  | .error e => .error e
  | .ok value_col =>
    let timestamp_col := find_timestamp_column g
    let data_start_row := find_data_start_row g
    let timestamps := colSliceFrom g data_start_row timestamp_col
    let values := (colSliceFrom g data_start_row value_col).map to_numeric
    let filtered :=
      match config.start_date with
      | none => (timestamps, values)
      | some d => filter_by_start_date d timestamps values
    if filtered.1.length = filtered.2.length then .ok filtered
    else .error "Timestamps and values length mismatch"

/-- One row of the canonical nine-column output. -/
structure OutputRecord where
  date : Cell
  value : Option ℚ
  meternumber : String
  source_id : String
  source_serialnumber : String
  source_ean : String
  source_name : String
  mapping_config : String
  variable_id : String
deriving DecidableEq, Repr

/-- create_output_dataframe: zip the two index-aligned series into
records; the four reserved columns are empty strings.  The series the
pipeline passes here always have equal lengths (the extractor checks). -/
def create_output_dataframe (timestamps : List Cell) (values : List (Option ℚ))
    (ean : String) (mapping : EANMapping) : List OutputRecord :=
  timestamps.zipWith (fun t v =>
    { date := t, value := v, meternumber := ean, source_id := mapping.source_id,
      source_serialnumber := "", source_ean := "", source_name := "",
      mapping_config := "", variable_id := mapping.variable_id }) values

/-- One element of a pandas to_datetime result: NaT (from a NaN cell) or
an instant.  Instants are integer minutes on the same scale as the dt
cells, extended below zero because a numeric cell is interpreted as
nanoseconds since 1970-01-01T00:00, which lies mid-week and may precede
the model epoch. -/
inductive PdDatetime where
  | NaT : PdDatetime
  | ts : Int → PdDatetime
deriving DecidableEq, Repr

/-- Minutes from the Monday 00:00 model epoch (1969-12-29) to the pandas
numeric epoch 1970-01-01T00:00, a Thursday. -/
def epoch1970 : Int := 4320

/-- The instant pandas gives a numeric cell under to_datetime: the number
is nanoseconds since 1970-01-01T00:00, here at minute resolution on the
model scale. -/
def numToInstant (q : ℚ) : Int := epoch1970 + Int.floor (q / 60000000000)

/-- pandas to_datetime of one cell with errors raise: a NaN cell becomes
NaT without raising, a numeric cell becomes its epoch instant, a datetime
cell keeps its instant, and only an unparseable string raises. -/
def cellToPd : Cell → Except String PdDatetime
  | .empty => .ok .NaT
  | .num q => .ok (.ts (numToInstant q))
  | .dt _ t => .ok (.ts (t : Int))
  | .text _ => .error "could not parse timestamp"

/-- Does pandas to_datetime accept the cell without raising, true for
everything except an unparseable string. -/
def Cell.pdConvertible : Cell → Bool
  | .text _ => false
  | _ => true

/-- The to_datetime value of a convertible cell. -/
def cellPdValue (c : Cell) : PdDatetime :=
  match cellToPd c with
  | .ok v => v
  | .error _ => .NaT

/-- Weekday of a possibly pre-epoch instant, Monday = 0; integer division
here is Euclidean, agreeing with the floor division Python computes for
the positive divisor. -/
def weekdayInt (t : Int) : Int := (t / 1440) % 7

/-- Hour of day of a possibly pre-epoch instant, always 0 to 23. -/
def hourInt (t : Int) : Int := (t % 1440) / 60

/-- is_peak_hour as the splitter applies it elementwise to the converted
series: the weekday and hour of NaT are nan, both comparisons of the
source are then False, so NaT is classified off-peak rather than
raising; instants follow the weekday/hour rule. -/
def is_peak_hour_pd : PdDatetime → Bool
  | .NaT => false
  | .ts t =>
    if 5 ≤ weekdayInt t then false
    else decide (7 ≤ hourInt t) && decide (hourInt t < 22)

/-- pandas to_datetime on a whole series with errors raise: raises exactly
when some cell is an unparseable string, and otherwise converts every
cell, NaN cells becoming NaT. -/
def to_datetime_strict : List Cell → Except String (List PdDatetime)
  | [] => .ok []
  | c :: rest =>
    match cellToPd c with
    | .ok v =>
      match to_datetime_strict rest with
      | .ok l => .ok (v :: l)
      | .error e => .error e
    | .error e => .error e

/-- split_data_by_period: convert all timestamps (raising exactly on
unparseable strings), build the peak mask, and boolean-index the two
original series with the mask and its complement. -/
def split_data_by_period (timestamps : List Cell) (values : List α) :
    Except String ((List Cell × List α) × (List Cell × List α)) :=
  match to_datetime_strict timestamps with
  | .error e => .error e
  | .ok dts =>
    let peak_mask := dts.map is_peak_hour_pd
    .ok ((maskFilter timestamps peak_mask, maskFilter values peak_mask),
         (maskFilter timestamps (peak_mask.map not), maskFilter values (peak_mask.map not)))

/-- The elementwise classification of the splitter lifted back to cells:
the to_datetime value of the cell classified by the period rule.  An
unparseable text cell is put off-peak here, but the splitter raises on
such a cell before classifying anything. -/
def is_peak_cell (c : Cell) : Bool :=
  match cellToPd c with
  | .ok v => is_peak_hour_pd v
  | .error _ => false

/-- Modelled from the spec: the acceptance test the specification ascribes
to every branch of the content heuristic, namely that a sampled cell is
date-like whenever its string form contains a year token or a colon or
dash separator. -/
def spec_date_like (c : Cell) : Bool :=
  c.isNotNA && hasAnySub (cellStr c) ["2022", "2023", "2024", "2025", ":", "-"]

deriving instance DecidableEq for Except

/-- Whether a data row survives the optional start-date filter, looking at
its timestamp cell. -/
def keepRow (config : ParserConfig) (tcol : Nat) (row : List Cell) : Bool :=
  match config.start_date with
  | none => true
  | some d => dateKeep d ((row.get? tcol).getD .empty)

/-- A mapping table holding only dual-tariff variants of one identifier. -/
def exDualTable : List (String × EANMapping) :=
  [("123_peak", ⟨"sp", "vp", ""⟩), ("123_offpeak", ⟨"so", "vo", ""⟩)]

/-- A one-key mapping table sharing no leading segment with the probe identifier. -/
def exNoPrefixTable : List (String × EANMapping) := [("123", ⟨"s1", "v1", ""⟩)]

/-- A mapping table whose keys extend the probe identifier. -/
def exPrefixTable : List (String × EANMapping) :=
  [("12345", ⟨"s1", "v1", ""⟩), ("12399", ⟨"s2", "v2", ""⟩)]

/-- A well-formed worksheet: identifier cell, marker rows, a labeled Date
and consumption column, and three data rows of which one value fails
numeric coercion and one timestamp is unparseable. -/
def gA : Grid :=
  ⟨[[.text "ID", .text "541448911004090123_ABC", .empty],
    [.text "Role description", .text "Date", .text "MEASURED ACTIVE CONSUMPTION"],
    [.text "Profile description", .empty, .empty],
    [.empty, .dt "2023-01-02 07:00:00" 420, .num 5],
    [.empty, .dt "2023-01-02 07:15:00" 435, .text "abc"],
    [.empty, .text "notadate", .num 7]], 3⟩

/-- A worksheet with a marker header row but no Date label, whose first
column holds strings containing a year token that do not parse as
datetimes. -/
def gB : Grid :=
  ⟨[[.text "x", .text "541_ABC", .empty],
    [.text "Role description", .text "foo", .text "MEASURED ACTIVE CONSUMPTION"],
    [.text "Profile description", .empty, .empty],
    [.text "x2023", .text "aaa", .num 1],
    [.text "x2023", .text "aaa", .num 1],
    [.text "x2023", .text "aaa", .num 1],
    [.text "x2023", .text "aaa", .num 1],
    [.text "x2023", .text "aaa", .num 1]], 3⟩

/-- A tiny worksheet none of whose cell strings contain a year token,
colon or dash. -/
def gC : Grid := ⟨[[.text "Role description", .text "x"], [.text "x", .text "y"]], 2⟩

/-! ### Helper lemmas -/

theorem maskFilter_nil_left (mask : List Bool) : maskFilter ([] : List α) mask = [] := by
  simp [maskFilter]

theorem maskFilter_nil_right (xs : List α) : maskFilter xs [] = [] := by
  simp [maskFilter]

theorem maskFilter_cons (x : α) (xs : List α) (b : Bool) (mask : List Bool) :
    maskFilter (x :: xs) (b :: mask) =
      if b then x :: maskFilter xs mask else maskFilter xs mask := by
  simp only [maskFilter, List.zip_cons_cons, List.filterMap_cons]
  cases b <;> simp

theorem maskFilter_map_self (l : List α) (f : α → Bool) :
    maskFilter l (l.map f) = l.filter f := by
  induction l with
  | nil => simp [maskFilter]
  | cons x xs ih =>
    simp only [List.map_cons, maskFilter_cons, List.filter_cons]
    cases f x <;> simp [ih]

theorem maskFilter_map_map (l : List α) (f : α → β) (p : α → Bool) :
    maskFilter (l.map f) (l.map p) = (l.filter p).map f := by
  induction l with
  | nil => simp [maskFilter]
  | cons x xs ih =>
    simp only [List.map_cons, maskFilter_cons, List.filter_cons]
    cases p x <;> simp [ih]

theorem maskFilter_zip (xs : List α) (ys : List β) (mask : List Bool)
    (h : xs.length = ys.length) :
    (maskFilter xs mask).zip (maskFilter ys mask) = maskFilter (xs.zip ys) mask := by
  induction xs generalizing ys mask with
  | nil =>
    cases ys with
    | nil => simp [maskFilter]
    | cons y ys => simp at h
  | cons x xs ih =>
    cases ys with
    | nil => simp at h
    | cons y ys =>
      cases mask with
      | nil => simp [maskFilter]
      | cons b mask =>
        have h2 : xs.length = ys.length := by simpa using h
        simp only [List.zip_cons_cons, maskFilter_cons]
        cases b <;> simp [List.zip_cons_cons, ih _ _ h2]

theorem maskFilter_zip_map_fst (xs : List α) (ys : List β) (g : α → Bool)
    (h : xs.length = ys.length) :
    maskFilter (xs.zip ys) (xs.map g) = (xs.zip ys).filter (fun p => g p.1) := by
  induction xs generalizing ys with
  | nil => simp [maskFilter]
  | cons x xs ih =>
    cases ys with
    | nil => simp at h
    | cons y ys =>
      have h2 : xs.length = ys.length := by simpa using h
      simp only [List.zip_cons_cons, List.map_cons, maskFilter_cons, List.filter_cons]
      cases g x <;> simp [ih _ h2]

theorem maskFilter_length_partition (xs : List α) (mask : List Bool)
    (h : mask.length = xs.length) :
    (maskFilter xs mask).length + (maskFilter xs (mask.map not)).length = xs.length := by
  induction xs generalizing mask with
  | nil => simp [maskFilter]
  | cons x xs ih =>
    cases mask with
    | nil => simp at h
    | cons b mask =>
      have h2 : mask.length = xs.length := by simpa using h
      have ih2 := ih _ h2
      simp only [List.map_cons, maskFilter_cons, Bool.not_true, Bool.not_false]
      cases b <;> simp <;> omega

theorem maskFilter_length_congr (xs : List α) (ys : List β) (mask : List Bool)
    (h : xs.length = ys.length) :
    (maskFilter xs mask).length = (maskFilter ys mask).length := by
  induction xs generalizing ys mask with
  | nil =>
    cases ys with
    | nil => rfl
    | cons y ys => simp at h
  | cons x xs ih =>
    cases ys with
    | nil => simp at h
    | cons y ys =>
      cases mask with
      | nil => simp [maskFilter]
      | cons b mask =>
        have h2 : xs.length = ys.length := by simpa using h
        simp only [maskFilter_cons]
        cases b <;> simp [ih _ _ h2]

theorem filter_length_partition (l : List α) (p : α → Bool) :
    (l.filter p).length + (l.filter (fun a => !p a)).length = l.length := by
  induction l with
  | nil => simp
  | cons x xs ih =>
    simp only [List.filter_cons]
    cases p x <;> simp [ih] <;> omega

theorem cellToPd_ok_of_convertible (c : Cell) (h : c.pdConvertible = true) :
    cellToPd c = .ok (cellPdValue c) := by
  cases c <;> simp [Cell.pdConvertible, cellToPd, cellPdValue] at h ⊢

theorem to_datetime_strict_ok (ts : List Cell) (l : List PdDatetime)
    (h : to_datetime_strict ts = .ok l) :
    (∀ c ∈ ts, c.pdConvertible = true) ∧ l = ts.map cellPdValue := by
  induction ts generalizing l with
  | nil =>
    simp only [to_datetime_strict] at h
    cases h
    simp
  | cons c rest ih =>
    simp only [to_datetime_strict] at h
    cases hc : cellToPd c with
    | error e => rw [hc] at h; cases h
    | ok v =>
      rw [hc] at h
      cases hr : to_datetime_strict rest with
      | error e => rw [hr] at h; cases h
      | ok l2 =>
        rw [hr] at h
        cases h
        obtain ⟨hall, hmap⟩ := ih l2 hr
        have hconv : c.pdConvertible = true := by
          cases c <;> simp [cellToPd] at hc <;> rfl
        refine ⟨?_, ?_⟩
        · intro x hx
          rcases List.mem_cons.mp hx with hx | hx
          · subst hx; exact hconv
          · exact hall x hx
        · simp [hmap, cellPdValue, hc]

theorem to_datetime_strict_ok_of_all (ts : List Cell)
    (h : ∀ c ∈ ts, c.pdConvertible = true) :
    to_datetime_strict ts = .ok (ts.map cellPdValue) := by
  induction ts with
  | nil => simp [to_datetime_strict]
  | cons c rest ih =>
    have hc := cellToPd_ok_of_convertible c (h c (by simp))
    simp only [to_datetime_strict, hc, ih (fun x hx => h x (by simp [hx])),
      List.map_cons]

theorem is_peak_hour_pd_coe (n : Nat) :
    is_peak_hour_pd (.ts (n : Int)) = is_peak_hour n := by
  have hw : weekdayInt (n : Int) = ((weekday n : Nat) : Int) := by
    unfold weekdayInt weekday
    omega
  have hh : hourInt (n : Int) = ((hourOf n : Nat) : Int) := by
    unfold hourInt hourOf
    omega
  unfold is_peak_hour_pd is_peak_hour
  change (if 5 ≤ weekdayInt (n : Int) then false
      else decide (7 ≤ hourInt (n : Int)) && decide (hourInt (n : Int) < 22)) =
    if 5 ≤ weekday n then false else decide (7 ≤ hourOf n) && decide (hourOf n < 22)
  rw [hw, hh]
  by_cases h5 : 5 ≤ weekday n
  · have h6 : 5 ≤ ((weekday n : Nat) : Int) := by exact_mod_cast h5
    simp [h5, h6]
  · have h6 : ¬(5 : Int) ≤ ((weekday n : Nat) : Int) := by exact_mod_cast h5
    have h7 : (7 ≤ ((hourOf n : Nat) : Int)) ↔ (7 ≤ hourOf n) := by exact_mod_cast Iff.rfl
    have h8 : (((hourOf n : Nat) : Int) < 22) ↔ (hourOf n < 22) := by exact_mod_cast Iff.rfl
    simp [h5, h6, h7, h8]

theorem create_output_length (ts : List Cell) (vs : List (Option ℚ))
    (ean : String) (m : EANMapping) :
    (create_output_dataframe ts vs ean m).length = min ts.length vs.length := by
  simp [create_output_dataframe]

theorem create_output_map_value (ts : List Cell) (vs : List (Option ℚ))
    (ean : String) (m : EANMapping) (h : ts.length = vs.length) :
    (create_output_dataframe ts vs ean m).map (fun r => r.value) = vs := by
  induction ts generalizing vs with
  | nil =>
    cases vs with
    | nil => rfl
    | cons v vs => simp at h
  | cons t ts ih =>
    cases vs with
    | nil => simp at h
    | cons v vs =>
      have h2 : ts.length = vs.length := by simpa using h
      simp [create_output_dataframe] at ih ⊢
      exact ih _ h2

theorem create_output_map_date (ts : List Cell) (vs : List (Option ℚ))
    (ean : String) (m : EANMapping) (h : ts.length = vs.length) :
    (create_output_dataframe ts vs ean m).map (fun r => r.date) = ts := by
  induction ts generalizing vs with
  | nil => rfl
  | cons t ts ih =>
    cases vs with
    | nil => simp at h
    | cons v vs =>
      have h2 : ts.length = vs.length := by simpa using h
      simp [create_output_dataframe] at ih ⊢
      exact ih _ h2

theorem ts_stage4_none_or_zero (g : Grid) : ts_stage4 g = none ∨ ts_stage4 g = some 0 := by
  unfold ts_stage4
  by_cases h : find_data_start_row g < g.rows.length
  · simp only [h, if_true]
    cases cellAt g (find_data_start_row g) 0 with
    | none => simp
    | some c =>
      by_cases hd : dateLike_col0 c = true
      · simp [hd]
      · simp [hd]
  · simp [h]

theorem ts_stage3_none_of_no_role (g : Grid) (h : find_role_header_row g = none) :
    ts_stage3 g = none := by
  unfold ts_stage3 find_consumption_column
  by_cases h2 : g.rows.length < 2
  · simp [h2]
  · simp [h2, h]

theorem find_timestamp_column_chain (g : Grid) :
    find_timestamp_column g =
      (ts_stage1 g <|> ts_stage2 g <|> ts_stage3 g <|> ts_stage4 g).getD 0 := by
  cases hrole : find_role_header_row g with
  | none =>
    have h1 : ts_stage1 g = none := by simp [ts_stage1, hrole]
    have h2 : ts_stage2 g = heuristic3 g := by simp [ts_stage2, hrole]
    have h3 : ts_stage3 g = none := ts_stage3_none_of_no_role g hrole
    simp only [find_timestamp_column, hrole, h1, h2, h3]
    cases h5 : heuristic3 g with
    | some c => simp
    | none => rcases ts_stage4_none_or_zero g with h4 | h4 <;> simp [h4]
  | some hri =>
    have h1 : ts_stage1 g =
        (g.row hri).findIdx? (fun c => c.isNotNA && containsSub (lowerStr (cellStr c)) "date") := by
      simp [ts_stage1, hrole]
    have h2 : ts_stage2 g = heuristic5 g := by simp [ts_stage2, hrole]
    simp only [find_timestamp_column, hrole, h1, h2]
    cases hidx : (g.row hri).findIdx?
        (fun c => c.isNotNA && containsSub (lowerStr (cellStr c)) "date") with
    | some c => simp
    | none =>
      cases h5 : heuristic5 g with
      | some c => simp
      | none =>
        cases h3 : ts_stage3 g with
        | some c => simp
        | none =>
          cases h4 : ts_stage4 g with
          | some c => simp
          | none => simp

/-! ### Claim theorems -/

/-- Claim C1: for every timestamp the classifier returns off-peak when the
weekday is Saturday or Sunday (weekday at least 5 with Monday 0) and
otherwise returns peak exactly when the hour lies in the half-open range
7 to 22; in particular Monday 06:59 is off-peak, Monday 07:00 peak,
Monday 21:59 peak, Monday 22:00 off-peak and Saturday 12:00 off-peak. -/
theorem is_peak_hour_characterisation :
    (∀ t : Nat, is_peak_hour t =
      (decide (weekday t < 5) && (decide (7 ≤ hourOf t) && decide (hourOf t < 22)))) ∧
    is_peak_hour 419 = false ∧ is_peak_hour 420 = true ∧
    is_peak_hour 1319 = true ∧ is_peak_hour 1320 = false ∧
    is_peak_hour 7920 = false := by
  refine ⟨fun t => ?_, by decide, by decide, by decide, by decide, by decide⟩
  unfold is_peak_hour
  by_cases h : 5 ≤ weekday t
  · have h2 : ¬weekday t < 5 := by omega
    simp [h, h2]
  · have h2 : weekday t < 5 := by omega
    simp [h, h2, Bool.and_assoc]

/-- Claim C6 (amended): the locator is extensionally the fallback chain
date-header cell, then the branch-dependent content heuristic, then one
left of the value column, then the column-0 check, then the default 0. -/
theorem find_timestamp_column_fallback_chain (g : Grid) :
    find_timestamp_column g =
      (ts_stage1 g <|> ts_stage2 g <|> ts_stage3 g <|> ts_stage4 g).getD 0 :=
  find_timestamp_column_chain g

/-- Claim C6 (counterexample): on the grid gB the header scan finds no
date label and every one of the five sampled cells of column 0 satisfies
the acceptance condition the claim states for the content heuristic, yet
the locator does not return column 0: it returns column 1 through the
before-consumption inference, because the sampled strings do not parse as
datetimes. -/
theorem find_timestamp_column_spec_heuristic_refuted :
    ts_stage1 gB = none ∧
    (colSlice gB (find_data_start_row gB) (find_data_start_row gB + 5) 0).countP
      (fun c => spec_date_like c) = 5 ∧
    find_timestamp_column gB ≠ 0 ∧ find_timestamp_column gB = 1 := by decide

/-- Claim C3: resolving an identifier with no period specified fails with
the distinguishing dual-variant error whenever the bare key is absent but
a peak or offpeak variant key exists; it never resolves to a variant. -/
theorem find_ean_mapping_dual_no_period (ean : String)
    (ean_mapping : List (String × EANMapping))
    (hbare : ean_mapping.lookup ean = none)
    (hvar : (ean_mapping.lookup (ean ++ "_peak")).isSome = true ∨
      (ean_mapping.lookup (ean ++ "_offpeak")).isSome = true) :
    find_ean_mapping ean ean_mapping none =
      .error (.dualVariantsNoPeriod ean) := by
  unfold find_ean_mapping
  rcases hvar with h | h <;> simp [hbare, h]

/-- Witness for claim C3 on a table holding only the two variant keys. -/
theorem find_ean_mapping_dual_no_period_witness :
    find_ean_mapping "123" exDualTable none =
      .error (.dualVariantsNoPeriod "123") :=
  find_ean_mapping_dual_no_period "123" exDualTable (by decide) (Or.inl (by decide))

/-- Claim C8: when neither the bare key nor either tariff variant exists,
the resolver fails listing every key extending the identifier, or the
first five table keys when no key extends it. -/
theorem find_ean_mapping_not_found_suggestions (ean : String)
    (ean_mapping : List (String × EANMapping)) (p : Option Bool)
    (hbare : ean_mapping.lookup ean = none)
    (hpeak : ean_mapping.lookup (ean ++ "_peak") = none)
    (hoff : ean_mapping.lookup (ean ++ "_offpeak") = none) :
    find_ean_mapping ean ean_mapping p =
      (if (ean_mapping.map Prod.fst).filter (fun k => keyStarts k ean) = [] then
        .error (.notFound ean ((ean_mapping.map Prod.fst).take 5))
      else
        .error (.similarAvailable ean
          ((ean_mapping.map Prod.fst).filter (fun k => keyStarts k ean)))) := by
  unfold find_ean_mapping
  cases p with
  | none => simp [hbare, hpeak, hoff]
  | some b => cases b <;> simp [hbare, hpeak, hoff]

/-- Witness for claim C8: an identifier extending no key lists the first
keys, one that some keys extend lists those keys. -/
theorem find_ean_mapping_not_found_suggestions_witness :
    find_ean_mapping "9999" exNoPrefixTable none =
      .error (.notFound "9999" ["123"]) ∧
    find_ean_mapping "123" exPrefixTable none =
      .error (.similarAvailable "123" ["12345", "12399"]) := by
  constructor
  · rw [find_ean_mapping_not_found_suggestions "9999" exNoPrefixTable none
      (by decide) (by decide) (by decide)]
    decide
  · rw [find_ean_mapping_not_found_suggestions "123" exPrefixTable none
      (by decide) (by decide) (by decide)]
    decide

/-- Claim C7: when the identifier cell exists, extraction returns the
trimmed part before the first underscore exactly when the cell is
non-empty, contains an underscore and that part is non-blank, and fails
exactly when the cell is empty, has no underscore, or trims to empty. -/
theorem extract_ean_characterisation (g : Grid) (config : ParserConfig) (c : Cell)
    (hcell : cellAt g config.header_row config.header_col = some c) :
    (c.isNotNA = true → containsSub (cellStr c) "_" = true →
      trimStr (String.mk ((cellStr c).data.takeWhile (fun ch => ch != '_'))) ≠ "" →
      extract_ean_from_excel g config =
        .ok (trimStr (String.mk ((cellStr c).data.takeWhile (fun ch => ch != '_'))))) ∧
    ((∃ e, extract_ean_from_excel g config = .error e) ↔
      (c.isNotNA = false ∨ containsSub (cellStr c) "_" = false ∨
        trimStr (String.mk ((cellStr c).data.takeWhile (fun ch => ch != '_'))) = "")) := by
  have hdef : extract_ean_from_excel g config =
      (if c.isNotNA = false ∨ containsSub (cellStr c) "_" = false then
        .error "Invalid EAN format"
      else if trimStr (String.mk ((cellStr c).data.takeWhile (fun ch => ch != '_'))) = "" then
        .error "EAN is empty after extraction"
      else
        .ok (trimStr (String.mk ((cellStr c).data.takeWhile (fun ch => ch != '_'))))) := by
    unfold extract_ean_from_excel
    rw [hcell]
  rw [hdef]
  constructor
  · intro h1 h2 h3
    simp [h1, h2, h3]
  · constructor
    · intro ⟨e, he⟩
      by_cases h1 : c.isNotNA = false ∨ containsSub (cellStr c) "_" = false
      · rcases h1 with h1 | h1
        · exact Or.inl h1
        · exact Or.inr (Or.inl h1)
      · rw [if_neg h1] at he
        by_cases h3 :
            trimStr (String.mk ((cellStr c).data.takeWhile (fun ch => ch != '_'))) = ""
        · exact Or.inr (Or.inr h3)
        · rw [if_neg h3] at he
          cases he
    · intro h
      rcases h with h | h | h
      · exact ⟨_, by rw [if_pos (Or.inl h)]⟩
      · exact ⟨_, by rw [if_pos (Or.inr h)]⟩
      · by_cases h1 : c.isNotNA = false ∨ containsSub (cellStr c) "_" = false
        · exact ⟨_, by rw [if_pos h1]⟩
        · exact ⟨_, by rw [if_neg h1, if_pos h]⟩

/-- Witness for claim C7: the specified example cell value yields the
specified identifier on the grid gA. -/
theorem extract_ean_characterisation_witness :
    extract_ean_from_excel gA {} = .ok "541448911004090123" := by
  have h := (extract_ean_characterisation gA {}
      (.text "541448911004090123_ABC") (by decide)).1 (by decide) (by decide) (by decide)
  rw [h]
  decide

/-- Claim C2: a successful period split partitions the zipped series
exactly, in lockstep and preserving order: the peak pairs are the input
pairs whose timestamp classifies peak, the off-peak pairs the rest, the
lengths add up, every input point lands in exactly one side. -/
theorem split_data_partition {α : Type} (ts : List Cell) (vs : List α)
    (pt ot : List Cell) (pv ov : List α)
    (hlen : ts.length = vs.length)
    (hok : split_data_by_period ts vs = .ok ((pt, pv), (ot, ov))) :
    pt.length + ot.length = ts.length ∧
    pv.length + ov.length = vs.length ∧
    pt.zip pv = (ts.zip vs).filter (fun p => is_peak_cell p.1) ∧
    ot.zip ov = (ts.zip vs).filter (fun p => !is_peak_cell p.1) ∧
    (∀ p ∈ ts.zip vs, p ∈ pt.zip pv ∨ p ∈ ot.zip ov) ∧
    (∀ p : Cell × α, ¬(p ∈ pt.zip pv ∧ p ∈ ot.zip ov)) := by
  cases htds : to_datetime_strict ts with
  | error e =>
    have hcontra : split_data_by_period ts vs = .error e := by
      unfold split_data_by_period
      rw [htds]
    rw [hcontra] at hok
    cases hok
  | ok dts =>
    obtain ⟨hall, hdts⟩ := to_datetime_strict_ok ts dts htds
    have hval : split_data_by_period ts vs =
        .ok ((maskFilter ts (dts.map is_peak_hour_pd), maskFilter vs (dts.map is_peak_hour_pd)),
          (maskFilter ts ((dts.map is_peak_hour_pd).map not),
            maskFilter vs ((dts.map is_peak_hour_pd).map not))) := by
      unfold split_data_by_period
      rw [htds]
    rw [hval] at hok
    have hmask : dts.map is_peak_hour_pd = ts.map is_peak_cell := by
      rw [hdts, List.map_map]
      refine List.map_congr_left fun c hc => ?_
      have h2 := hall c hc
      cases c <;> simp [cellPdValue, cellToPd, is_peak_cell, Cell.pdConvertible] at h2 ⊢
    have hmask2 : (ts.map is_peak_cell).map not = ts.map (fun c => !is_peak_cell c) := by
      rw [List.map_map]
      rfl
    rw [hmask, hmask2] at hok
    simp only [Except.ok.injEq, Prod.mk.injEq] at hok
    obtain ⟨⟨hpt, hpv⟩, hot, hov⟩ := hok
    have hlenmask : (ts.map is_peak_cell).length = vs.length := by
      simpa using hlen
    have h3 : pt.zip pv = (ts.zip vs).filter (fun p => is_peak_cell p.1) := by
      rw [← hpt, ← hpv, maskFilter_zip ts vs _ hlen, maskFilter_zip_map_fst ts vs _ hlen]
    have h4 : ot.zip ov = (ts.zip vs).filter (fun p => !is_peak_cell p.1) := by
      rw [← hot, ← hov, maskFilter_zip ts vs _ hlen, maskFilter_zip_map_fst ts vs _ hlen]
    refine ⟨?_, ?_, h3, h4, ?_, ?_⟩
    · rw [← hpt, ← hot, maskFilter_map_self, maskFilter_map_self]
      exact filter_length_partition ts is_peak_cell
    · have hnot : (ts.map is_peak_cell).map not = ts.map (fun c => !is_peak_cell c) := by
        rw [List.map_map]
        rfl
      rw [← hpv, ← hov, ← hnot]
      exact maskFilter_length_partition vs (ts.map is_peak_cell) hlenmask
    · intro p hp
      by_cases h : is_peak_cell p.1 = true
      · exact Or.inl (by rw [h3]; exact List.mem_filter.mpr ⟨hp, h⟩)
      · refine Or.inr (by rw [h4]; exact List.mem_filter.mpr ⟨hp, by simp [h]⟩)
    · intro p hp
      obtain ⟨h5, h6⟩ := hp
      rw [h3] at h5
      rw [h4] at h6
      have h7 := (List.mem_filter.mp h5).2
      have h8 := (List.mem_filter.mp h6).2
      rw [h7] at h8
      cases h8

/-- Witness for claim C2 on a two-point series with one peak and one
off-peak instant. -/
theorem split_data_partition_witness :
    [Cell.dt "a" 420].length + [Cell.dt "b" 419].length =
      [Cell.dt "a" 420, Cell.dt "b" 419].length ∧
    [(1 : Nat)].length + [(2 : Nat)].length = [(1 : Nat), (2 : Nat)].length := by
  have h := split_data_partition [Cell.dt "a" 420, Cell.dt "b" 419] [(1 : Nat), 2]
    [Cell.dt "a" 420] [Cell.dt "b" 419] [1] [2] (by decide) (by decide)
  exact ⟨h.1, h.2.1⟩

/-- Claim C9 (counterexample): the splitter succeeds on a series whose
single timestamp is a NaN cell, which is not a parseable timestamp: the
cell becomes NaT, is classified off-peak, and the point is routed
silently to the off-peak output instead of aborting the conversion. -/
theorem split_succeeds_on_nan_timestamp :
    (Cell.empty).isDatetime = false ∧
    split_data_by_period [Cell.empty] [(1 : ℚ)] =
      .ok (([], []), ([Cell.empty], [(1 : ℚ)])) := by
  constructor
  · rfl
  · rfl

/-- Claim C9 (amended): the dual-tariff splitter fails (the raised error
surfacing to the caller as a value error) whenever the timestamps contain
an unparseable string, and succeeds exactly when no timestamp is an
unparseable string: a NaN timestamp becomes NaT, whose nan weekday and
hour comparisons classify it off-peak rather than raising, and a numeric
timestamp is interpreted as an epoch instant.  The single-tariff output
assembler instead writes every timestamp through unchanged. -/
theorem split_raises_only_on_unparseable_text :
    (∀ (ts : List Cell) (vs : List ℚ) (s : String), Cell.text s ∈ ts →
      ∃ e, split_data_by_period ts vs = Except.error e) ∧
    (∀ (ts : List Cell) (vs : List ℚ),
      (∃ r, split_data_by_period ts vs = Except.ok r) ↔
        ∀ c ∈ ts, c.pdConvertible = true) ∧
    is_peak_hour_pd PdDatetime.NaT = false ∧
    (∀ (ts : List Cell) (vs : List (Option ℚ)) (ean : String) (m : EANMapping),
      ts.length = vs.length →
      (create_output_dataframe ts vs ean m).map (fun r => r.date) = ts) := by
  have herr : ∀ ts : List Cell, (∃ c ∈ ts, c.pdConvertible = false) →
      ∃ e, to_datetime_strict ts = .error e := by
    intro ts h
    cases htds : to_datetime_strict ts with
    | error e => exact ⟨e, rfl⟩
    | ok l =>
      obtain ⟨c, hc, hcd⟩ := h
      have h2 := (to_datetime_strict_ok ts l htds).1 c hc
      rw [hcd] at h2
      cases h2
  refine ⟨?_, ?_, rfl, ?_⟩
  · intro ts vs s hs
    obtain ⟨e, he⟩ := herr ts ⟨_, hs, by simp [Cell.pdConvertible]⟩
    refine ⟨e, ?_⟩
    unfold split_data_by_period
    rw [he]
  · intro ts vs
    constructor
    · intro hr c hc
      obtain ⟨r, hr⟩ := hr
      unfold split_data_by_period at hr
      cases htds : to_datetime_strict ts with
      | error e => rw [htds] at hr; cases hr
      | ok l => exact (to_datetime_strict_ok ts l htds).1 c hc
    · intro hall
      have h1 := to_datetime_strict_ok_of_all ts hall
      have h2 : split_data_by_period ts vs =
          .ok ((maskFilter ts ((ts.map cellPdValue).map is_peak_hour_pd),
              maskFilter vs ((ts.map cellPdValue).map is_peak_hour_pd)),
            (maskFilter ts (((ts.map cellPdValue).map is_peak_hour_pd).map not),
              maskFilter vs (((ts.map cellPdValue).map is_peak_hour_pd).map not))) := by
        unfold split_data_by_period
        rw [h1]
      exact ⟨_, h2⟩
  · intro ts vs ean m hlen
    exact create_output_map_date ts vs ean m hlen

/-- Witness for claim C9: one unparseable string timestamp makes the
splitter fail while the single-tariff assembler writes it through. -/
theorem split_raises_only_on_unparseable_text_witness :
    (∃ e, split_data_by_period [Cell.text "oops"] [(1 : ℚ)] = Except.error e) ∧
    (create_output_dataframe [Cell.text "oops"] [some 1] "e" ⟨"s", "v", ""⟩).map
      (fun r => r.date) = [Cell.text "oops"] :=
  ⟨split_raises_only_on_unparseable_text.1 _ _ "oops" (by simp),
   split_raises_only_on_unparseable_text.2.2.2 _ _ "e" ⟨"s", "v", ""⟩ (by simp)⟩

theorem colSliceFrom_length (g : Grid) (a col : Nat) :
    (colSliceFrom g a col).length = (g.rows.drop a).length := by
  simp [colSliceFrom]

theorem extract_eq_error (g : Grid) (config : ParserConfig) (ctype : String) (e : String)
    (hv : find_consumption_column g ctype = .error e) :
    extract_data_from_excel g config ctype = .error e := by
  unfold extract_data_from_excel
  simp only [hv]

theorem extract_eq_none (g : Grid) (config : ParserConfig) (ctype : String) (vcol : Nat)
    (hv : find_consumption_column g ctype = .ok vcol) (hs : config.start_date = none) :
    extract_data_from_excel g config ctype =
      .ok (colSliceFrom g (find_data_start_row g) (find_timestamp_column g),
        (colSliceFrom g (find_data_start_row g) vcol).map to_numeric) := by
  have hlen : (colSliceFrom g (find_data_start_row g) (find_timestamp_column g)).length =
      ((colSliceFrom g (find_data_start_row g) vcol).map to_numeric).length := by
    simp [colSliceFrom]
  unfold extract_data_from_excel
  simp only [hv, hs, hlen, if_true]

theorem extract_eq_some (g : Grid) (config : ParserConfig) (ctype : String) (vcol d : Nat)
    (hv : find_consumption_column g ctype = .ok vcol) (hs : config.start_date = some d) :
    extract_data_from_excel g config ctype =
      .ok (filter_by_start_date d
        (colSliceFrom g (find_data_start_row g) (find_timestamp_column g))
        ((colSliceFrom g (find_data_start_row g) vcol).map to_numeric)) := by
  have hbase : (colSliceFrom g (find_data_start_row g) (find_timestamp_column g)).length =
      ((colSliceFrom g (find_data_start_row g) vcol).map to_numeric).length := by
    simp [colSliceFrom]
  have hlen : (filter_by_start_date d
        (colSliceFrom g (find_data_start_row g) (find_timestamp_column g))
        ((colSliceFrom g (find_data_start_row g) vcol).map to_numeric)).1.length =
      (filter_by_start_date d
        (colSliceFrom g (find_data_start_row g) (find_timestamp_column g))
        ((colSliceFrom g (find_data_start_row g) vcol).map to_numeric)).2.length := by
    unfold filter_by_start_date
    exact maskFilter_length_congr _ _ _ hbase
  unfold extract_data_from_excel
  simp only [hv, hs, hlen, if_true]

/-- Claim C5: the start-date filter keeps exactly the points whose parsed
timestamp is at least the start date, in lockstep on both series; a point
exactly at the start date is kept, a point one minute earlier is dropped,
an unparseable point is dropped; and with a start date configured the
extractor is the unfiltered extractor followed by this lockstep filter. -/
theorem start_date_filter_inclusive :
    (∀ {α : Type} (d : Nat) (ts : List Cell) (vs : List α), ts.length = vs.length →
      (filter_by_start_date d ts vs).1 = ts.filter (dateKeep d) ∧
      ((filter_by_start_date d ts vs).1).zip (filter_by_start_date d ts vs).2 =
        (ts.zip vs).filter (fun p => dateKeep d p.1)) ∧
    (∀ (d : Nat) (s : String), dateKeep d (Cell.dt s d) = true) ∧
    (∀ (d : Nat) (s : String), 0 < d → dateKeep d (Cell.dt s (d - 1)) = false) ∧
    (∀ (d : Nat) (s : String), dateKeep d (Cell.text s) = false) ∧
    (∀ (g : Grid) (config : ParserConfig) (ctype : String) (d : Nat),
      config.start_date = some d →
      extract_data_from_excel g config ctype =
        (extract_data_from_excel g { config with start_date := none } ctype).map
          (fun p => filter_by_start_date d p.1 p.2)) := by
  refine ⟨?_, ?_, ?_, ?_, ?_⟩
  · intro α d ts vs hlen
    constructor
    · unfold filter_by_start_date
      exact maskFilter_map_self ts (dateKeep d)
    · unfold filter_by_start_date
      rw [maskFilter_zip ts vs _ hlen, maskFilter_zip_map_fst ts vs _ hlen]
  · intro d s
    simp [dateKeep, parse_dt_cell]
  · intro d s hd
    simp only [dateKeep, parse_dt_cell, decide_eq_false_iff_not]
    omega
  · intro d s
    simp [dateKeep, parse_dt_cell]
  · intro g config ctype d hs
    cases hv : find_consumption_column g ctype with
    | error e =>
      rw [extract_eq_error g config ctype e hv,
        extract_eq_error g { config with start_date := none } ctype e hv]
      rfl
    | ok vcol =>
      rw [extract_eq_some g config ctype vcol d hv hs,
        extract_eq_none g { config with start_date := none } ctype vcol hv rfl]
      rfl

/-- Witness for claim C5 on the grid gA with a start date between the two
datetime points: the point at the start date onwards is kept, the earlier
point and the unparseable point are dropped, in lockstep. -/
theorem start_date_filter_inclusive_witness :
    dateKeep 435 (Cell.dt "2023-01-02 07:15:00" 435) = true ∧
    dateKeep 435 (Cell.dt "x" 434) = false ∧
    dateKeep 435 (Cell.text "notadate") = false ∧
    extract_data_from_excel gA { start_date := some 435 } "MEASURED ACTIVE CONSUMPTION" =
      (extract_data_from_excel gA {} "MEASURED ACTIVE CONSUMPTION").map
        (fun p => filter_by_start_date 435 p.1 p.2) := by
  refine ⟨start_date_filter_inclusive.2.1 435 "2023-01-02 07:15:00", ?_, ?_, ?_⟩
  · have h := start_date_filter_inclusive.2.2.1 435 "x" (by decide)
    simpa using h
  · exact start_date_filter_inclusive.2.2.2.1 435 "notadate"
  · exact start_date_filter_inclusive.2.2.2.2 gA
      { start_date := some 435 } "MEASURED ACTIVE CONSUMPTION" 435 rfl

/-- Claim C4: when extraction succeeds, the output record list has exactly
one record per grid row from the data-start row to the end that survives
the optional start-date filter, and the value of each record is exactly
the numeric coercion of the value cell of that row, so coercion failures
appear as explicit missing markers and no row is dropped. -/
theorem output_row_count_preserved (g : Grid) (config : ParserConfig) (ctype : String)
    (vcol : Nat) (ts : List Cell) (vs : List (Option ℚ)) (ean : String) (m : EANMapping)
    (hv : find_consumption_column g ctype = .ok vcol)
    (hx : extract_data_from_excel g config ctype = .ok (ts, vs)) :
    (create_output_dataframe ts vs ean m).length =
      ((g.rows.drop (find_data_start_row g)).filter
        (fun row => keepRow config (find_timestamp_column g) row)).length ∧
    (create_output_dataframe ts vs ean m).map (fun r => r.value) =
      ((g.rows.drop (find_data_start_row g)).filter
        (fun row => keepRow config (find_timestamp_column g) row)).map
        (fun row => to_numeric ((row.get? vcol).getD .empty)) := by
  cases hs : config.start_date with
  | none =>
    rw [extract_eq_none g config ctype vcol hv hs] at hx
    simp only [Except.ok.injEq, Prod.mk.injEq] at hx
    obtain ⟨hts, hvs⟩ := hx
    have hkeep : ∀ row ∈ g.rows.drop (find_data_start_row g),
        keepRow config (find_timestamp_column g) row = true := by
      intro row _
      unfold keepRow
      rw [hs]
    have hfil : (g.rows.drop (find_data_start_row g)).filter
        (fun row => keepRow config (find_timestamp_column g) row) =
        g.rows.drop (find_data_start_row g) :=
      List.filter_eq_self.mpr hkeep
    have hlen : ts.length = vs.length := by
      rw [← hts, ← hvs]
      simp [colSliceFrom]
    constructor
    · rw [create_output_length, hlen, Nat.min_self, hfil, ← hvs]
      simp [colSliceFrom]
    · rw [create_output_map_value ts vs ean m hlen, hfil, ← hvs]
      simp [colSliceFrom, List.map_map]
      rfl
  | some d =>
    rw [extract_eq_some g config ctype vcol d hv hs] at hx
    simp only [Except.ok.injEq] at hx
    have hts : ts = (filter_by_start_date d
        (colSliceFrom g (find_data_start_row g) (find_timestamp_column g))
        ((colSliceFrom g (find_data_start_row g) vcol).map to_numeric)).1 := by
      rw [hx]
    have hvs : vs = (filter_by_start_date d
        (colSliceFrom g (find_data_start_row g) (find_timestamp_column g))
        ((colSliceFrom g (find_data_start_row g) vcol).map to_numeric)).2 := by
      rw [hx]
    have hkeep : ∀ row, keepRow config (find_timestamp_column g) row =
        dateKeep d ((row.get? (find_timestamp_column g)).getD .empty) := by
      intro row
      unfold keepRow
      rw [hs]
    have hmask : (colSliceFrom g (find_data_start_row g) (find_timestamp_column g)).map
        (dateKeep d) = (g.rows.drop (find_data_start_row g)).map
          (fun row => dateKeep d ((row.get? (find_timestamp_column g)).getD .empty)) := by
      unfold colSliceFrom
      rw [List.map_map]
      rfl
    have hts2 : ts = ((g.rows.drop (find_data_start_row g)).filter
        (fun row => dateKeep d ((row.get? (find_timestamp_column g)).getD .empty))).map
        (fun row => (row.get? (find_timestamp_column g)).getD .empty) := by
      rw [hts]
      unfold filter_by_start_date
      rw [hmask]
      unfold colSliceFrom
      exact maskFilter_map_map _ _ _
    have hvs2 : vs = ((g.rows.drop (find_data_start_row g)).filter
        (fun row => dateKeep d ((row.get? (find_timestamp_column g)).getD .empty))).map
        (fun row => to_numeric ((row.get? vcol).getD .empty)) := by
      rw [hvs]
      unfold filter_by_start_date
      rw [hmask]
      unfold colSliceFrom
      rw [List.map_map]
      exact maskFilter_map_map _ _ _
    have hfil : (g.rows.drop (find_data_start_row g)).filter
        (fun row => keepRow config (find_timestamp_column g) row) =
        (g.rows.drop (find_data_start_row g)).filter
          (fun row => dateKeep d ((row.get? (find_timestamp_column g)).getD .empty)) := by
      exact List.filter_congr (fun row _ => hkeep row)
    have hlen : ts.length = vs.length := by
      rw [hts2, hvs2]
      simp
    constructor
    · rw [create_output_length, hlen, Nat.min_self, hfil, hvs2]
      simp
    · rw [create_output_map_value ts vs ean m hlen, hfil, hvs2]

/-- Witness for claim C4 on the grid gA, whose middle data row has a value
that fails numeric coercion and is preserved as a missing marker. -/
theorem output_row_count_preserved_witness :
    (create_output_dataframe
        [Cell.dt "2023-01-02 07:00:00" 420, Cell.dt "2023-01-02 07:15:00" 435,
          Cell.text "notadate"]
        [some 5, none, some 7] "541448911004090123" ⟨"s", "v", ""⟩).length =
      ((gA.rows.drop (find_data_start_row gA)).filter
        (fun row => keepRow {} (find_timestamp_column gA) row)).length ∧
    (create_output_dataframe
        [Cell.dt "2023-01-02 07:00:00" 420, Cell.dt "2023-01-02 07:15:00" 435,
          Cell.text "notadate"]
        [some 5, none, some 7] "541448911004090123" ⟨"s", "v", ""⟩).map
      (fun r => r.value) =
      ((gA.rows.drop (find_data_start_row gA)).filter
        (fun row => keepRow {} (find_timestamp_column gA) row)).map
        (fun row => to_numeric ((row.get? 2).getD .empty)) :=
  output_row_count_preserved gA {} "MEASURED ACTIVE CONSUMPTION" 2
    [Cell.dt "2023-01-02 07:00:00" 420, Cell.dt "2023-01-02 07:15:00" 435,
      Cell.text "notadate"]
    [some 5, none, some 7] "541448911004090123" ⟨"s", "v", ""⟩ (by decide) (by decide)

theorem colSlice_cases (g : Grid) (a b col : Nat) (c : Cell)
    (hc : c ∈ colSlice g a b col) : c = .empty ∨ ∃ row ∈ g.rows, c ∈ row := by
  unfold colSlice at hc
  obtain ⟨row, hrow, hcell⟩ := List.mem_map.mp hc
  have hrow2 : row ∈ g.rows := List.mem_of_mem_drop (List.mem_of_mem_take hrow)
  cases hg : row.get? col with
  | none =>
    left
    rw [hg] at hcell
    simp at hcell
    exact hcell.symm
  | some c2 =>
    right
    refine ⟨row, hrow2, ?_⟩
    rw [hg] at hcell
    simp at hcell
    rw [← hcell]
    exact List.get?_mem hg

/-- Claim C10: in every branch of the content heuristic a sampled cell
counts as date-like only if its string form contains one of the literal
year tokens 2022 to 2025 or a colon (or additionally a dash in the
headerless branch); hence on a grid none of whose cell strings contain
any of these substrings, both heuristics and the column-0 check reject
everything and the locator falls through to the remaining stages. -/
theorem date_like_substring_gate :
    (∀ c : Cell, dateLike_headerless c = true →
      hasAnySub (cellStr c) ["2022", "2023", "2024", "2025", ":", "-"] = true) ∧
    (∀ c : Cell, dateLike_labeled c = true →
      hasAnySub (cellStr c) ["2022", "2023", "2024", "2025", ":"] = true) ∧
    (∀ c : Cell, dateLike_col0 c = true →
      hasAnySub (cellStr c) ["2022", "2023", "2024", "2025", ":"] = true) ∧
    (∀ g : Grid,
      (∀ row ∈ g.rows, ∀ c ∈ row,
        hasAnySub (cellStr c) ["2022", "2023", "2024", "2025", ":", "-"] = false) →
      heuristic3 g = none ∧ heuristic5 g = none ∧ ts_stage4 g = none ∧
      find_timestamp_column g = (ts_stage1 g <|> ts_stage3 g).getD 0) := by
  have hdl3 : ∀ c : Cell,
      hasAnySub (cellStr c) ["2022", "2023", "2024", "2025", ":", "-"] = false →
      dateLike_headerless c = false := by
    intro c h
    simp [hasAnySub] at h
    simp [dateLike_headerless, hasAnySub, yearSubs, h]
  have hdl5 : ∀ c : Cell,
      hasAnySub (cellStr c) ["2022", "2023", "2024", "2025", ":", "-"] = false →
      dateLike_labeled c = false := by
    intro c h
    simp [hasAnySub] at h
    simp [dateLike_labeled, hasAnySub, yearSubs, h]
  have hdl0 : ∀ c : Cell,
      hasAnySub (cellStr c) ["2022", "2023", "2024", "2025", ":", "-"] = false →
      dateLike_col0 c = false := by
    intro c h
    simp [hasAnySub] at h
    simp [dateLike_col0, hasAnySub, yearSubs, h]
  refine ⟨?_, ?_, ?_, ?_⟩
  · intro c h
    simp [dateLike_headerless, hasAnySub, yearSubs] at h
    simp [hasAnySub]
    tauto
  · intro c h
    simp [dateLike_labeled, hasAnySub, yearSubs] at h
    simp [hasAnySub]
    tauto
  · intro c h
    simp [dateLike_col0, hasAnySub, yearSubs] at h
    simp [hasAnySub]
    tauto
  · intro g hg
    have hcellno : ∀ (a b col : Nat), ∀ c ∈ colSlice g a b col,
        hasAnySub (cellStr c) ["2022", "2023", "2024", "2025", ":", "-"] = false := by
      intro a b col c hc
      rcases colSlice_cases g a b col c hc with h | ⟨row, hrow, hcrow⟩
      · subst h
        decide
      · exact hg row hrow c hcrow
    have h3 : heuristic3 g = none := by
      unfold heuristic3
      refine List.find?_eq_none.mpr fun col _ => ?_
      have hcnt : (colSlice g (find_data_start_row g)
          (find_data_start_row g + 3) col).countP (fun c => dateLike_headerless c) = 0 :=
        List.countP_eq_zero.mpr fun c hc => by
          simp [hdl3 c (hcellno _ _ _ c hc)]
      simp [hcnt]
    have h5 : heuristic5 g = none := by
      unfold heuristic5
      refine List.find?_eq_none.mpr fun col _ => ?_
      have hcnt : (colSlice g (find_data_start_row g)
          (find_data_start_row g + 5) col).countP (fun c => dateLike_labeled c) = 0 :=
        List.countP_eq_zero.mpr fun c hc => by
          simp [hdl5 c (hcellno _ _ _ c hc)]
      simp [hcnt]
    have h4 : ts_stage4 g = none := by
      unfold ts_stage4
      by_cases hlt : find_data_start_row g < g.rows.length
      · simp only [hlt, if_true]
        cases hca : cellAt g (find_data_start_row g) 0 with
        | none => rfl
        | some c =>
          unfold cellAt at hca
          cases hrq : g.rows.get? (find_data_start_row g) with
          | none => rw [hrq] at hca; cases hca
          | some row =>
            rw [hrq] at hca
            have hca2 : row.get? 0 = some c := hca
            have hrmem : row ∈ g.rows := List.get?_mem hrq
            have hcmem : c ∈ row := List.get?_mem hca2
            have := hdl0 c (hg row hrmem c hcmem)
            simp [this]
      · simp [hlt]
    have h2 : ts_stage2 g = none := by
      unfold ts_stage2
      cases find_role_header_row g with
      | none => exact h3
      | some hri => exact h5
    refine ⟨h3, h5, h4, ?_⟩
    rw [find_timestamp_column_chain g, h2, h4]
    cases ts_stage1 g <;> cases ts_stage3 g <;> simp

/-- Witness for claim C10: a cell with a colon passes the gate, and on
the grid gC (no year tokens, colons or dashes anywhere) the heuristic
rejects every column and the locator reduces to the remaining stages. -/
theorem date_like_substring_gate_witness :
    hasAnySub (cellStr (Cell.text "a:b")) ["2022", "2023", "2024", "2025", ":", "-"] = true ∧
    heuristic3 gC = none ∧ heuristic5 gC = none ∧
    find_timestamp_column gC = (ts_stage1 gC <|> ts_stage3 gC).getD 0 :=
  ⟨date_like_substring_gate.1 (Cell.text "a:b") (by decide),
   (date_like_substring_gate.2.2.2 gC (by decide)).1,
   (date_like_substring_gate.2.2.2 gC (by decide)).2.1,
   (date_like_substring_gate.2.2.2 gC (by decide)).2.2.2⟩
